import Mathlib

/-!
Verification of the energy-meter-iot HTTP ingestion service.

Shallow embedding of `src/unnamed/part_000` (full variant with the reading
schema and the POST / and GET /readings routes) and `src/index.js` (reduced
variant with only the connection state machine and GET /).

Modelling conventions:
  * JavaScript numbers carried by readings are modelled as rationals;
    timestamps as integers (milliseconds since the epoch).
  * A JavaScript value that may be `undefined` is an `Option`.
  * JavaScript truthiness on a nullable number is `numTruthy`
    (false exactly on `undefined`/`null`/`0`, NaN never arising here for
    stored fields), and on a nullable string is `strTruthy`
    (false exactly on `undefined`/`null`/the empty string).
  * Float division `p / Math.abs(f)` yields a finite number exactly when
    `f ≠ 0` (operands being finite); a non-finite result (Infinity/NaN)
    is modelled as `none`.
-/

namespace EnergyMeterIoT

/-- A persisted energy-meter reading, after `energyMeterSchema` is applied:
the eight ingestable fields are all optional, `timestamp` defaults to the
creation time (`default: Date.now`), and `_id`, `createdAt`, `updatedAt`
are generated by the storage layer (`timestamps: true`). -/
structure EnergyReading where
  voltage : Option ℚ
  current : Option ℚ
  power : Option ℚ
  energy : Option ℚ
  frequency : Option ℚ
  powerFactor : Option ℚ
  deviceId : Option String
  location : Option String
  timestamp : Int
  id : Nat
  createdAt : Int
  updatedAt : Int
deriving DecidableEq, Repr

/-- The JSON body accepted by POST /: the eight optional fields
destructured from `req.body`. -/
structure PostBody where
  vol : Option ℚ
  current : Option ℚ
  power : Option ℚ
  energy : Option ℚ
  frequency : Option ℚ
  pf : Option ℚ
  deviceId : Option String
  location : Option String
deriving DecidableEq, Repr

/-- The partial document built by the POST / handler: each
`if (x !== undefined) energyData.y = x` assignment is an `Option`
passthrough, with `vol` renamed to `voltage` and `pf` to `powerFactor`. -/
structure EnergyData where
  voltage : Option ℚ
  current : Option ℚ
  power : Option ℚ
  energy : Option ℚ
  frequency : Option ℚ
  powerFactor : Option ℚ
  deviceId : Option String
  location : Option String
deriving DecidableEq, Repr

def buildEnergyData (b : PostBody) : EnergyData :=
  { voltage := b.vol
    current := b.current
    power := b.power
    energy := b.energy
    frequency := b.frequency
    powerFactor := b.pf
    deviceId := b.deviceId
    location := b.location }

/-- `new EnergyMeter(energyData)` followed by `.save()`: the document keeps
exactly the fields of `energyData`, the schema default fills `timestamp`
with the current time (the handler never sets it), and storage generates
the id and the creation/update timestamps. -/
def saveReading (d : EnergyData) (id : Nat) (now : Int) : EnergyReading :=
  { voltage := d.voltage
    current := d.current
    power := d.power
    energy := d.energy
    frequency := d.frequency
    powerFactor := d.powerFactor
    deviceId := d.deviceId
    location := d.location
    timestamp := now
    id := id
    createdAt := now
    updatedAt := now }

def postSave (b : PostBody) (id : Nat) (now : Int) : EnergyReading :=
  saveReading (buildEnergyData b) id now

/-- JavaScript truthiness of a possibly-undefined number: false exactly on
`undefined` and `0`. -/
def numTruthy : Option ℚ → Bool
  | some x => decide (x ≠ 0)
  | none => false

/-- JavaScript truthiness of a possibly-undefined (or null) string: false
exactly on `undefined`/`null` and on the empty string. -/
def strTruthy : Option String → Bool
  | some s => decide (s ≠ "")
  | none => false

/-- Instance method `getApparentPower`: `this.power / Math.abs(this.powerFactor)`.
The float division returns a finite number exactly when both fields are
defined and the power factor is nonzero; a non-finite result
(Infinity or NaN, when a field is undefined or `powerFactor` is zero)
is modelled as `none`. -/
def getApparentPower (r : EnergyReading) : Option ℚ :=
  match r.power, r.powerFactor with
  | some p, some f => if f = 0 then none else some (p / |f|)
  | _, _ => none

/-- The 201 response body of POST /: message, the saved record as `data`,
the generated id, the record timestamp, and `apparentPower` added only
when `savedReading.power && savedReading.powerFactor` is truthy. -/
structure PostSuccess where
  message : String
  data : EnergyReading
  insertedId : Nat
  timestamp : Int
  apparentPower : Option ℚ
deriving DecidableEq, Repr

def postOk (b : PostBody) (id : Nat) (now : Int) : PostSuccess :=
  let saved := postSave b id now
  { message := "Energy meter data saved successfully"
    data := saved
    insertedId := saved.id
    timestamp := saved.timestamp
    apparentPower :=
      if numTruthy saved.power && numTruthy saved.powerFactor then
        getApparentPower saved
      else none }

/-- An error thrown by the storage layer, as seen by the catch blocks:
its `name`, its `message`, and (for a mongoose ValidationError) the
per-field messages collected by
`Object.values(error.errors).map(err => err.message)`. -/
structure JsError where
  name : String
  message : String
  validationMessages : List String
deriving DecidableEq, Repr

/-- Outcome of `energyReading.save()`: success (with the generated id and
the current time) or a thrown error. -/
inductive SaveOutcome where
  | ok (id : Nat) (now : Int)
  | err (e : JsError)
deriving DecidableEq, Repr

/-- The three response shapes POST / can produce. -/
inductive PostResult where
  | created (resp : PostSuccess)
  | badRequest (error : String) (details : List String)
  | serverError (error : String) (details : String)
deriving DecidableEq, Repr

def PostResult.status : PostResult → Nat
  | .created _ => 201
  | .badRequest _ _ => 400
  | .serverError _ _ => 500

/-- The POST / handler: builds the partial document, saves it, and either
returns the 201 payload or maps the thrown error to 400
(`error.name === 'ValidationError'`) or 500. -/
def postHandler (b : PostBody) : SaveOutcome → PostResult
  | .ok id now => .created (postOk b id now)
  | .err e =>
      if e.name = "ValidationError" then
        .badRequest "Validation failed" e.validationMessages
      else
        .serverError "Internal server error while saving data" e.message

/-- Query parameters of GET /readings, destructured from `req.query` with
`limit` defaulting to 50. A parameter absent from the URL is `none`;
`startDate`/`endDate` are modelled already parsed by `new Date(...)`, and
`limit` already coerced by `parseInt`. -/
structure ReadingsQuery where
  deviceId : Option String
  startDate : Option Int
  endDate : Option Int
  limit : Option Nat
deriving DecidableEq, Repr

/-- The filter document built by the GET /readings handler and evaluated by
`EnergyMeter.find`: an exact `deviceId` match added only when the
parameter is truthy (`if (deviceId)`), and inclusive `$gte`/`$lte` bounds
on `timestamp` added per present date parameter. -/
def matchesQuery (q : ReadingsQuery) (r : EnergyReading) : Bool :=
  (match q.deviceId with
   | some d => if d = "" then true else decide (r.deviceId = some d)
   | none => true) &&
  (match q.startDate with
   | some a => decide (a ≤ r.timestamp)
   | none => true) &&
  (match q.endDate with
   | some b => decide (r.timestamp ≤ b)
   | none => true)

/-- One insertion step of `.sort({ timestamp: -1 })`: place `r` before the
first element with a strictly smaller timestamp. -/
def insertByTsDesc (r : EnergyReading) : List EnergyReading → List EnergyReading
  | [] => [r]
  | x :: xs => if x.timestamp < r.timestamp then r :: x :: xs else x :: insertByTsDesc r xs

/-- `.sort({ timestamp: -1 })`: the matched records ordered by timestamp
descending. -/
def sortByTimestampDesc (l : List EnergyReading) : List EnergyReading :=
  l.foldr insertByTsDesc []

/-- The 200 response body of GET /readings. -/
structure ReadingsSuccess where
  message : String
  count : Nat
  data : List EnergyReading
deriving DecidableEq, Repr

/-- The GET /readings handler on a given stored collection:
`EnergyMeter.find(query).sort({ timestamp: -1 }).limit(parseInt(limit))`,
with `limit` defaulting to 50, then the 200 payload with the count of the
returned records. -/
def readingsHandler (store : List EnergyReading) (q : ReadingsQuery) : ReadingsSuccess :=
  let rs := (sortByTimestampDesc (store.filter (matchesQuery q))).take (q.limit.getD 50)
  { message := "Energy meter readings retrieved successfully"
    count := rs.length
    data := rs }

/-- Static method `getReadingsInRange(startDate, endDate, deviceId = null)`:
inclusive timestamp bounds, an exact `deviceId` match added only when the
argument is truthy, result sorted by timestamp descending. -/
def getReadingsInRange (store : List EnergyReading) (startDate endDate : Int)
    (deviceId : Option String) : List EnergyReading :=
  sortByTimestampDesc (store.filter (fun r =>
    decide (startDate ≤ r.timestamp) && decide (r.timestamp ≤ endDate) &&
    (match deviceId with
     | some d => if d = "" then true else decide (r.deviceId = some d)
     | none => true)))

/-- The 500 response of the GET /readings catch block. -/
structure ErrorResponse where
  status : Nat
  error : String
  details : String
deriving DecidableEq, Repr

def readingsCatch (e : JsError) : ErrorResponse :=
  { status := 500
    error := "Internal server error while retrieving data"
    details := e.message }

lemma mem_insertByTsDesc {r a : EnergyReading} {l : List EnergyReading} :
    a ∈ insertByTsDesc r l ↔ a = r ∨ a ∈ l := by
  induction l with
  | nil => simp [insertByTsDesc]
  | cons x xs ih =>
    simp only [insertByTsDesc]
    split
    · simp
    · simp [ih]
      tauto

lemma pairwise_insertByTsDesc {r : EnergyReading} {l : List EnergyReading}
    (h : l.Pairwise (fun a b => b.timestamp ≤ a.timestamp)) :
    (insertByTsDesc r l).Pairwise (fun a b => b.timestamp ≤ a.timestamp) := by
  induction l with
  | nil => simp [insertByTsDesc]
  | cons x xs ih =>
    rw [List.pairwise_cons] at h
    obtain ⟨hx, hxs⟩ := h
    simp only [insertByTsDesc]
    split
    next hlt =>
      refine List.Pairwise.cons ?_ (List.Pairwise.cons hx hxs)
      intro b hb
      rcases List.mem_cons.mp hb with rfl | hb
      · exact le_of_lt hlt
      · exact le_trans (hx b hb) (le_of_lt hlt)
    next hge =>
      refine List.Pairwise.cons ?_ (ih hxs)
      intro b hb
      rcases mem_insertByTsDesc.mp hb with rfl | hb
      · exact le_of_not_lt hge
      · exact hx b hb

lemma pairwise_sortByTimestampDesc (l : List EnergyReading) :
    (sortByTimestampDesc l).Pairwise (fun a b => b.timestamp ≤ a.timestamp) := by
  induction l with
  | nil => simp [sortByTimestampDesc]
  | cons x xs ih =>
    simpa [sortByTimestampDesc] using pairwise_insertByTsDesc ih

lemma mem_sortByTimestampDesc {a : EnergyReading} {l : List EnergyReading} :
    a ∈ sortByTimestampDesc l ↔ a ∈ l := by
  induction l with
  | nil => simp [sortByTimestampDesc]
  | cons x xs ih =>
    simp only [sortByTimestampDesc, List.foldr_cons, List.mem_cons]
    rw [show List.foldr insertByTsDesc [] xs = sortByTimestampDesc xs from rfl] at *
    rw [mem_insertByTsDesc, ih]

lemma mem_readingsHandler_data {store : List EnergyReading} {q : ReadingsQuery}
    {r : EnergyReading} (h : r ∈ (readingsHandler store q).data) :
    r ∈ store ∧ matchesQuery q r = true := by
  have h1 : r ∈ sortByTimestampDesc (store.filter (matchesQuery q)) :=
    List.mem_of_mem_take h
  have h2 := mem_sortByTimestampDesc.mp h1
  exact ⟨List.mem_of_mem_filter h2, List.of_mem_filter h2⟩

/-- A stored reading with only a deviceId, a timestamp and the generated
fields, used to instantiate the query claims on concrete collections. -/
def demoReading (d : Option String) (ts : Int) (i : Nat) : EnergyReading :=
  ⟨none, none, none, none, none, none, d, none, ts, i, ts, ts⟩

/-- Five stored readings with distinct timestamps, listed out of order. -/
def demoStore : List EnergyReading :=
  [demoReading (some "meter-1") 3 1, demoReading (some "meter-1") 1 2,
   demoReading (some "meter-1") 5 3, demoReading (some "meter-1") 2 4,
   demoReading (some "meter-1") 4 5]

/-- Claim C1: for every valid partial POST / body, the stored record
contains exactly the EnergyReading fields present in the body (`vol`
mapped to `voltage`, `pf` mapped to `powerFactor`) and no others besides
the generated id and timestamp fields — `EnergyReading` has no further
fields — and the response `data` is that record unchanged. -/
theorem post_stores_exactly_body_fields (b : PostBody) (id : Nat) (now : Int) :
    (postSave b id now).voltage = b.vol ∧
    (postSave b id now).current = b.current ∧
    (postSave b id now).power = b.power ∧
    (postSave b id now).energy = b.energy ∧
    (postSave b id now).frequency = b.frequency ∧
    (postSave b id now).powerFactor = b.pf ∧
    (postSave b id now).deviceId = b.deviceId ∧
    (postSave b id now).location = b.location ∧
    (postSave b id now).id = id ∧
    (postSave b id now).timestamp = now ∧
    (postOk b id now).data = postSave b id now ∧
    (postOk b id now).insertedId = id ∧
    (postOk b id now).timestamp = now :=
  ⟨rfl, rfl, rfl, rfl, rfl, rfl, rfl, rfl, rfl, rfl, rfl, rfl, rfl⟩

/-- Claim C2, counterexample: for the body `{"power":0,"pf":1}` the stored
record has both `power` and `powerFactor` defined, yet `apparentPower` is
absent from the 201 response, because the handler guards on JavaScript
truthiness (`savedReading.power && savedReading.powerFactor`) and `0` is
falsy — refuting presence "regardless of their numeric values". -/
theorem apparentPower_absent_for_zero_power :
    (postSave ⟨none, none, some 0, none, none, some 1, none, none⟩ 1 0).power = some 0 ∧
    (postSave ⟨none, none, some 0, none, none, some 1, none, none⟩ 1 0).powerFactor = some 1 ∧
    (postOk ⟨none, none, some 0, none, none, some 1, none, none⟩ 1 0).apparentPower = none := by
  refine ⟨rfl, rfl, ?_⟩
  simp [postOk, numTruthy, postSave, saveReading, buildEnergyData]

/-- Claim C2, amended: `apparentPower` is present in the 201 response if
and only if the stored record has both `power` and `powerFactor` defined
and nonzero (JavaScript-truthy). -/
theorem apparentPower_present_iff_truthy (b : PostBody) (id : Nat) (now : Int) :
    (postOk b id now).apparentPower ≠ none ↔
      numTruthy (postSave b id now).power = true ∧
      numTruthy (postSave b id now).powerFactor = true := by
  have hp : (postSave b id now).power = b.power := rfl
  have hf : (postSave b id now).powerFactor = b.pf := rfl
  rcases hbp : b.power with _ | p <;> rcases hbf : b.pf with _ | f <;>
    simp [postOk, postSave, saveReading, buildEnergyData, numTruthy,
      getApparentPower, hbp, hbf]

/-- Claim C3: `getApparentPower` returns `power / |powerFactor|` whenever
both fields are defined and the power factor is nonzero, and is invalid
(non-finite, modelled `none`) when the power factor is zero; and for the
body `{"vol":230,"current":2,"power":460,"pf":1}` POST / responds 201 with
`data.voltage = 230`, `data.current = 2`, `data.power = 460`,
`data.powerFactor = 1` and `apparentPower = 460`. -/
theorem getApparentPower_spec :
    (∀ (r : EnergyReading) (p f : ℚ), r.power = some p → r.powerFactor = some f →
        f ≠ 0 → getApparentPower r = some (p / |f|)) ∧
    (∀ r : EnergyReading, r.powerFactor = some 0 → getApparentPower r = none) ∧
    (postHandler ⟨some 230, some 2, some 460, none, none, some 1, none, none⟩
        (.ok 7 1000)).status = 201 ∧
    (postSave ⟨some 230, some 2, some 460, none, none, some 1, none, none⟩ 7 1000).voltage
        = some 230 ∧
    (postSave ⟨some 230, some 2, some 460, none, none, some 1, none, none⟩ 7 1000).current
        = some 2 ∧
    (postSave ⟨some 230, some 2, some 460, none, none, some 1, none, none⟩ 7 1000).power
        = some 460 ∧
    (postSave ⟨some 230, some 2, some 460, none, none, some 1, none, none⟩ 7 1000).powerFactor
        = some 1 ∧
    (postOk ⟨some 230, some 2, some 460, none, none, some 1, none, none⟩ 7 1000).data
        = postSave ⟨some 230, some 2, some 460, none, none, some 1, none, none⟩ 7 1000 ∧
    (postOk ⟨some 230, some 2, some 460, none, none, some 1, none, none⟩ 7 1000).apparentPower
        = some 460 := by
  refine ⟨?_, ?_, rfl, rfl, rfl, rfl, rfl, rfl, ?_⟩
  · intro r p f hp hf hfz
    simp [getApparentPower, hp, hf, hfz]
  · intro r hf
    rcases hp : r.power with _ | p <;> simp [getApparentPower, hp, hf]
  · norm_num [postOk, postSave, saveReading, buildEnergyData, numTruthy,
      getApparentPower]

/-- Witness for C3: the formula part applied at a concrete reading with
power 460 and power factor 1. -/
theorem getApparentPower_spec_witness :
    getApparentPower ⟨none, none, some 460, none, none, some 1, none, none, 0, 0, 0, 0⟩
      = some 460 := by
  have h := getApparentPower_spec.1
    ⟨none, none, some 460, none, none, some 1, none, none, 0, 0, 0, 0⟩
    460 1 rfl rfl (by norm_num)
  simpa using h

/-- Claim C4: GET /readings returns the matched records ordered by
timestamp descending (pairwise non-increasing), capped at the `limit`
parameter, defaulting to 50 when absent, with `count` the number of
returned records and every returned record a stored record matching the
query; and with `limit = 2` on five stored records it returns exactly the
two most recent. -/
theorem readings_sorted_and_limited :
    (∀ store q, ((readingsHandler store q).data).Pairwise
        (fun a b => b.timestamp ≤ a.timestamp)) ∧
    (∀ store q, ((readingsHandler store q).data).length ≤ q.limit.getD 50) ∧
    (∀ store (q : ReadingsQuery), q.limit = none →
        ((readingsHandler store q).data).length ≤ 50) ∧
    (∀ store q, (readingsHandler store q).count
        = ((readingsHandler store q).data).length) ∧
    (∀ store q r, r ∈ (readingsHandler store q).data →
        r ∈ store ∧ matchesQuery q r = true) ∧
    (readingsHandler demoStore ⟨none, none, none, some 2⟩).data
      = [demoReading (some "meter-1") 5 3, demoReading (some "meter-1") 4 5] := by
  refine ⟨?_, ?_, ?_, ?_, ?_, ?_⟩
  · intro store q
    exact (pairwise_sortByTimestampDesc _).take
  · intro store q
    exact List.length_take_le _ _
  · intro store q hq
    simp [readingsHandler, hq]
  · intro store q
    rfl
  · intro store q r hr
    exact mem_readingsHandler_data hr
  · decide

/-- Witness for C4: the default-limit bound and the membership consequence
applied at concrete stores. -/
theorem readings_sorted_and_limited_witness :
    ((readingsHandler demoStore ⟨none, none, none, none⟩).data).length ≤ 50 ∧
    (demoReading (some "meter-1") 5 3 ∈ demoStore ∧
      matchesQuery ⟨none, none, none, some 2⟩ (demoReading (some "meter-1") 5 3) = true) :=
  ⟨readings_sorted_and_limited.2.2.1 demoStore ⟨none, none, none, none⟩ rfl,
   readings_sorted_and_limited.2.2.2.2.1 demoStore ⟨none, none, none, some 2⟩
     (demoReading (some "meter-1") 5 3) (by decide)⟩

/-- Claim C5: for every stored collection and every non-empty deviceId `x`,
every record returned by GET /readings with `deviceId = x` has
`deviceId = x`. -/
theorem readings_deviceId_filter (store : List EnergyReading) (x : String)
    (hx : x ≠ "") (sd ed : Option Int) (lim : Option Nat) (r : EnergyReading)
    (hr : r ∈ (readingsHandler store ⟨some x, sd, ed, lim⟩).data) :
    r.deviceId = some x := by
  obtain ⟨-, hm⟩ := mem_readingsHandler_data hr
  simp only [matchesQuery, if_neg hx, Bool.and_eq_true, decide_eq_true_eq] at hm
  exact hm.1.1

/-- Witness for C5: a record returned for `deviceId = "meter-1"` on the
demo collection has that deviceId. -/
theorem readings_deviceId_filter_witness :
    (demoReading (some "meter-1") 3 1).deviceId = some "meter-1" :=
  readings_deviceId_filter demoStore "meter-1" (by decide) none none none
    (demoReading (some "meter-1") 3 1) (by decide)

/-- Claim C6: GET /readings with `startDate = A` and `endDate = B` returns
only records with `A ≤ timestamp ≤ B` (both bounds inclusive); and
`getReadingsInRange(start, end, deviceId?)` returns exactly the stored
readings with timestamp in `[start, end]` — sound and complete — filtered
by deviceId when one is given, ordered by timestamp descending. -/
theorem readings_range_and_getReadingsInRange :
    (∀ store (A B : Int) (did : Option String) (lim : Option Nat) r,
        r ∈ (readingsHandler store ⟨did, some A, some B, lim⟩).data →
        A ≤ r.timestamp ∧ r.timestamp ≤ B) ∧
    (∀ store (A B : Int) did r, r ∈ getReadingsInRange store A B did →
        r ∈ store ∧ A ≤ r.timestamp ∧ r.timestamp ≤ B) ∧
    (∀ store (A B : Int) (d : String), d ≠ "" → ∀ r,
        r ∈ getReadingsInRange store A B (some d) → r.deviceId = some d) ∧
    (∀ store (A B : Int) r, r ∈ store → A ≤ r.timestamp → r.timestamp ≤ B →
        r ∈ getReadingsInRange store A B none) ∧
    (∀ store (A B : Int) (d : String), ∀ r, r ∈ store →
        A ≤ r.timestamp → r.timestamp ≤ B → r.deviceId = some d →
        r ∈ getReadingsInRange store A B (some d)) ∧
    (∀ store (A B : Int) did, (getReadingsInRange store A B did).Pairwise
        (fun a b => b.timestamp ≤ a.timestamp)) := by
  refine ⟨?_, ?_, ?_, ?_, ?_, ?_⟩
  · intro store A B did lim r hr
    obtain ⟨-, hm⟩ := mem_readingsHandler_data hr
    simp only [matchesQuery, Bool.and_eq_true, decide_eq_true_eq] at hm
    exact ⟨hm.1.2, hm.2⟩
  · intro store A B did r hr
    have h := mem_sortByTimestampDesc.mp hr
    refine ⟨List.mem_of_mem_filter h, ?_⟩
    have hp := List.of_mem_filter h
    simp only [Bool.and_eq_true, decide_eq_true_eq] at hp
    exact hp.1
  · intro store A B d hd r hr
    have hp := List.of_mem_filter (mem_sortByTimestampDesc.mp hr)
    simp only [if_neg hd, Bool.and_eq_true, decide_eq_true_eq] at hp
    exact hp.2
  · intro store A B r hr hA hB
    apply mem_sortByTimestampDesc.mpr
    apply List.mem_filter.mpr
    simp [hr, hA, hB]
  · intro store A B d r hr hA hB hdev
    apply mem_sortByTimestampDesc.mpr
    apply List.mem_filter.mpr
    refine ⟨hr, ?_⟩
    by_cases hd : d = "" <;> simp [hd, hA, hB, hdev]
  · intro store A B did
    exact pairwise_sortByTimestampDesc _

/-- Witness for C6: the bounds consequence and completeness applied on the
demo collection with the range `[2, 4]`. -/
theorem readings_range_witness :
    (2 ≤ (demoReading (some "meter-1") 3 1).timestamp ∧
      (demoReading (some "meter-1") 3 1).timestamp ≤ 4) ∧
    demoReading (some "meter-1") 3 1 ∈ getReadingsInRange demoStore 2 4 none :=
  ⟨readings_range_and_getReadingsInRange.1 demoStore 2 4 none (some 3)
      (demoReading (some "meter-1") 3 1) (by decide),
   readings_range_and_getReadingsInRange.2.2.2.1 demoStore 2 4
      (demoReading (some "meter-1") 3 1) (by decide) (by decide) (by decide)⟩

/-- The process-wide Storage Connector state: the status string held in
`mongoConnectionStatus` and the nullable `mongoError`. The status is kept
as a string, as in the source, so that confinement to the four documented
values is a real invariant. -/
structure ConnState where
  status : String
  error : Option String
deriving DecidableEq, Repr

/-- `let mongoConnectionStatus = "Disconnected"; let mongoError = null`. -/
def initialConnState : ConnState := { status := "Disconnected", error := none }

/-- The writes to the connector state: the two branches of `connectMongoDB`
and the three `mongoose.connection.on(...)` lifecycle handlers. -/
inductive ConnEvent where
  | connectSuccess
  | connectFailure (msg : String)
  | connectedEvent
  | disconnectedEvent
  | errorEvent (msg : String)
deriving DecidableEq, Repr

def connStep (s : ConnState) : ConnEvent → ConnState
  | .connectSuccess => { status := "Connected", error := none }
  | .connectFailure m => { status := "Failed", error := some m }
  | .connectedEvent => { status := "Connected", error := none }
  | .disconnectedEvent => { s with status := "Disconnected" }
  | .errorEvent m => { status := "Error", error := some m }

/-- The connector state after a sequence of connect outcomes and lifecycle
events, starting from the initial state. The HTTP routes never write the
state: they are modelled as pure functions of it. -/
def runConn (events : List ConnEvent) : ConnState :=
  events.foldl connStep initialConnState

/-- The 200 response body of GET /: the welcome message and the `mongodb`
object, whose `error` field is added only when `mongoError` is truthy
(`if (mongoError)`). -/
structure RootResponse where
  httpStatus : Nat
  message : String
  status : String
  database : String
  timestamp : String
  error : Option String
deriving DecidableEq, Repr

/-- The GET / handler, reading the connector state, whether `MONGODB_URI`
is set, and the current time. -/
def rootHandler (s : ConnState) (configured : Bool) (nowIso : String) : RootResponse :=
  { httpStatus := 200
    message := "Welcome, your app is working well"
    status := s.status
    database := if configured then "Configured" else "Not Configured"
    timestamp := nowIso
    error := if strTruthy s.error then s.error else none }

/-- Claim C7, counterexample: after an `error` lifecycle event whose
message is the empty string, the last error is non-null (`some ""`) yet
GET / includes no `error` field, because `if (mongoError)` tests
JavaScript truthiness and the empty string is falsy — refuting "includes
an error field exactly when the last error is non-null". -/
theorem root_error_field_counterexample :
    (connStep initialConnState (.errorEvent "")).error = some "" ∧
    (rootHandler (connStep initialConnState (.errorEvent "")) true
        "2026-01-01T00:00:00.000Z").error = none := by
  constructor
  · rfl
  · simp [rootHandler, connStep, strTruthy]

/-- Claim C7, amended: GET / always responds 200 with the welcome message,
the current status string, whether a database endpoint is configured, and
the current timestamp, and includes an `error` field exactly when the last
error is non-null and non-empty (JavaScript-truthy); in particular after a
connect failure with a non-empty message it reports status `"Failed"` and
that message as `error`. -/
theorem root_reports_connector_state :
    (∀ s (cfg : Bool) t, (rootHandler s cfg t).httpStatus = 200 ∧
        (rootHandler s cfg t).message = "Welcome, your app is working well" ∧
        (rootHandler s cfg t).status = s.status ∧
        (rootHandler s cfg t).database
          = (if cfg then "Configured" else "Not Configured") ∧
        (rootHandler s cfg t).timestamp = t) ∧
    (∀ s (cfg : Bool) t, (rootHandler s cfg t).error ≠ none ↔
        ∃ m, s.error = some m ∧ m ≠ "") ∧
    (∀ (prev : ConnState) (m : String) (cfg : Bool) t, m ≠ "" →
        (rootHandler (connStep prev (.connectFailure m)) cfg t).status = "Failed" ∧
        (rootHandler (connStep prev (.connectFailure m)) cfg t).error = some m) := by
  refine ⟨fun s cfg t => ⟨rfl, rfl, rfl, rfl, rfl⟩, ?_, ?_⟩
  · intro s cfg t
    rcases hs : s.error with _ | m
    · simp [rootHandler, strTruthy, hs]
    · by_cases hm : m = "" <;> simp [rootHandler, strTruthy, hs, hm]
  · intro prev m cfg t hm
    constructor
    · rfl
    · simp [rootHandler, connStep, strTruthy, hm]

/-- Witness for C7 (amended): the unreachable-endpoint scenario at a
concrete failure message. -/
theorem root_reports_connector_state_witness :
    (rootHandler (connStep initialConnState (.connectFailure "connect ECONNREFUSED"))
        true "2026-01-01T00:00:00.000Z").status = "Failed" ∧
    (rootHandler (connStep initialConnState (.connectFailure "connect ECONNREFUSED"))
        true "2026-01-01T00:00:00.000Z").error = some "connect ECONNREFUSED" :=
  root_reports_connector_state.2.2 initialConnState "connect ECONNREFUSED" true
    "2026-01-01T00:00:00.000Z" (by decide)

/-- Claim C8: the POST / catch block responds 400 with "Validation failed"
and the per-field messages exactly when the thrown error is a
ValidationError, and 500 with the generic message plus the underlying
error text otherwise; every save outcome is mapped to one of the 201, 400
or 500 JSON responses (no error escapes the route boundary), and the
GET /readings catch block likewise maps any error to its 500 response. -/
theorem post_error_handling :
    (∀ (b : PostBody) (e : JsError), e.name = "ValidationError" →
        postHandler b (.err e) = .badRequest "Validation failed" e.validationMessages) ∧
    (∀ (b : PostBody) (e : JsError), e.name ≠ "ValidationError" →
        postHandler b (.err e)
          = .serverError "Internal server error while saving data" e.message) ∧
    (∀ (b : PostBody) (o : SaveOutcome), (postHandler b o).status = 201 ∨
        (postHandler b o).status = 400 ∨ (postHandler b o).status = 500) ∧
    (∀ e : JsError, (readingsCatch e).status = 500 ∧
        (readingsCatch e).error = "Internal server error while retrieving data" ∧
        (readingsCatch e).details = e.message) := by
  refine ⟨?_, ?_, ?_, fun e => ⟨rfl, rfl, rfl⟩⟩
  · intro b e he
    simp [postHandler, he]
  · intro b e he
    simp [postHandler, he]
  · intro b o
    rcases o with _ | e
    · exact Or.inl rfl
    · by_cases he : e.name = "ValidationError" <;>
        simp [postHandler, he, PostResult.status]

/-- Witness for C8: the two catch branches at concrete errors. -/
theorem post_error_handling_witness :
    postHandler ⟨none, none, none, none, none, none, none, none⟩
        (.err ⟨"ValidationError", "Validation failed", ["voltage: Cast to Number failed"]⟩)
      = .badRequest "Validation failed" ["voltage: Cast to Number failed"] ∧
    postHandler ⟨none, none, none, none, none, none, none, none⟩
        (.err ⟨"MongoNetworkError", "connection timed out", []⟩)
      = .serverError "Internal server error while saving data" "connection timed out" :=
  ⟨post_error_handling.1 ⟨none, none, none, none, none, none, none, none⟩
      ⟨"ValidationError", "Validation failed", ["voltage: Cast to Number failed"]⟩ rfl,
   post_error_handling.2.1 ⟨none, none, none, none, none, none, none, none⟩
      ⟨"MongoNetworkError", "connection timed out", []⟩ (by decide)⟩

/-- Claim C9: in every reachable connector state the status is one of
`"Disconnected"`, `"Connected"`, `"Failed"`, `"Error"`, and the writes are
exactly those of the connect call and the lifecycle handlers: connect
success and the `connected` event set Connected and clear the error,
connect failure sets Failed with the error message, the `error` event sets
Error with the error message, and the `disconnected` event sets
Disconnected; the HTTP routes, being pure functions of the state, change
nothing. -/
theorem connector_state_machine :
    (∀ events, (runConn events).status = "Disconnected" ∨
        (runConn events).status = "Connected" ∨
        (runConn events).status = "Failed" ∨
        (runConn events).status = "Error") ∧
    (∀ s, connStep s .connectSuccess = ⟨"Connected", none⟩) ∧
    (∀ s m, connStep s (.connectFailure m) = ⟨"Failed", some m⟩) ∧
    (∀ s, connStep s .connectedEvent = ⟨"Connected", none⟩) ∧
    (∀ s m, connStep s (.errorEvent m) = ⟨"Error", some m⟩) ∧
    (∀ s, (connStep s .disconnectedEvent).status = "Disconnected" ∧
        (connStep s .disconnectedEvent).error = s.error) := by
  refine ⟨?_, fun s => rfl, fun s m => rfl, fun s => rfl, fun s m => rfl,
    fun s => ⟨rfl, rfl⟩⟩
  intro events
  suffices h : ∀ (evs : List ConnEvent) (s : ConnState),
      (s.status = "Disconnected" ∨ s.status = "Connected" ∨
        s.status = "Failed" ∨ s.status = "Error") →
      ((evs.foldl connStep s).status = "Disconnected" ∨
        (evs.foldl connStep s).status = "Connected" ∨
        (evs.foldl connStep s).status = "Failed" ∨
        (evs.foldl connStep s).status = "Error") by
    exact h events initialConnState (Or.inl rfl)
  intro evs
  induction evs with
  | nil => intro s hs; exact hs
  | cons e rest ih =>
    intro s hs
    rcases e with _ | m | _ | _ | m <;>
      exact ih _ (by simp [connStep])

/-- Claim C10: the `disconnected` lifecycle event sets the status to
Disconnected but leaves the last error unchanged, so after an `error`
event with a non-empty message followed by a disconnect, GET / reports
status `"Disconnected"` together with the stale error message. -/
theorem disconnected_keeps_stale_error :
    (∀ s, (connStep s .disconnectedEvent).error = s.error ∧
        (connStep s .disconnectedEvent).status = "Disconnected") ∧
    (∀ (s : ConnState) (m : String) (cfg : Bool) t, m ≠ "" →
        (rootHandler (connStep (connStep s (.errorEvent m)) .disconnectedEvent)
            cfg t).status = "Disconnected" ∧
        (rootHandler (connStep (connStep s (.errorEvent m)) .disconnectedEvent)
            cfg t).error = some m) := by
  refine ⟨fun s => ⟨rfl, rfl⟩, ?_⟩
  intro s m cfg t hm
  constructor
  · rfl
  · simp [rootHandler, connStep, strTruthy, hm]

/-- Witness for C10: an error event with a concrete message followed by a
disconnect leaves the stale error visible in GET /. -/
theorem disconnected_keeps_stale_error_witness :
    (rootHandler (connStep (connStep initialConnState (.errorEvent "socket closed"))
        .disconnectedEvent) true "2026-01-01T00:00:00.000Z").status = "Disconnected" ∧
    (rootHandler (connStep (connStep initialConnState (.errorEvent "socket closed"))
        .disconnectedEvent) true "2026-01-01T00:00:00.000Z").error = some "socket closed" :=
  disconnected_keeps_stale_error.2 initialConnState "socket closed" true
    "2026-01-01T00:00:00.000Z" (by decide)

end EnergyMeterIoT
